import Mathlib

/-!
Shallow embedding of the zp-memory-pool allocator, used to check the
natural-language specification against the code.

Generation 2 (`src/version2`): `SizeClass` and `ThreadCache` are embedded from
`src/version2/include/Common.h` and `src/version2/src/ThreadCache.cc`.
`CentralCache` is not part of the repository sources; per the spec (section 4.4)
it is an external collaborator whose `fetchRange` answer is modelled as an
oracle input and whose `rerurnRange` invocation is recorded as an event.

Generation 1 (`src/version1/ZPmemoryPool.{h,cc}` and the older
`src/src/ZPmemoryPool.cc` with `src/include/ZPmemoryPool.h`): `MemoryPool` and
the `HashBucket` front end.

Pointers are modelled as natural-number addresses, with 0 standing for
`nullptr`.  An intrusive nullptr-terminated free chain (each free slot's first
word holding the address of the next slot) is modelled as the `List Nat` of
slot addresses in chain order.  `size_t` arithmetic is modelled exactly as
`Nat` arithmetic modulo `2 ^ 64`.
-/

set_option maxRecDepth 8000

/-- `size_t` modulus, `2 ^ 64`: the code targets a 64-bit platform. -/
def W64 : Nat := 18446744073709551616

namespace SupperPool

/-- `constexpr size_t ALIGNMENT = 8` (Common.h). -/
def ALIGNMENT : Nat := 8

/-- `constexpr size_t MAX_BYTES = 256` (Common.h). -/
def MAX_BYTES : Nat := 256

/-- `constexpr size_t FREE_LIST_SIZE = MAX_BYTES / ALIGNMENT` (Common.h). -/
def FREE_LIST_SIZE : Nat := MAX_BYTES / ALIGNMENT

namespace SizeClass

/-- `SizeClass::roundUp` (Common.h): `(bytes + ALIGNMENT - 1) & ~(ALIGNMENT - 1)`
in `size_t` arithmetic; the complement of 7 over 64 bits is `2^64 - 8`. -/
def roundUp (bytes : Nat) : Nat :=
  ((bytes + (ALIGNMENT - 1)) % W64) &&& (W64 - ALIGNMENT)

/-- `SizeClass::getIndex` (Common.h): `bytes = max(bytes, ALIGNMENT);
return (bytes + ALIGNMENT - 1) / ALIGNMENT - 1;` in `size_t` arithmetic. -/
def getIndex (bytes : Nat) : Nat :=
  ((max bytes ALIGNMENT + (ALIGNMENT - 1)) % W64) / ALIGNMENT - 1

end SizeClass

/-- A call made by `ThreadCache` to the external `CentralCache` collaborator:
either `fetchRange(index)` or `rerurnRange(chain, numBytes, index)` where the
chain is recorded as the list of slot addresses handed over. -/
inductive CCall where
  | fetchRange : Nat → CCall
  | rerurnRange : List Nat → Nat → Nat → CCall
deriving DecidableEq, Repr

/-- State of one `ThreadCache` (ThreadCache.h): `free_list_` is
`std::array<void*, FREE_LIST_SIZE>` (each entry an intrusive chain, modelled
as the list of slot addresses), `free_list_size_` is
`std::array<size_t, FREE_LIST_SIZE>`.  The thread-local instance has static
storage duration, so both arrays start zero-initialized. -/
structure TCState where
  free_list : List (List Nat)
  free_list_size : List Nat
deriving DecidableEq, Repr

/-- The zero-initialized `ThreadCache` a thread starts with. -/
def initTC : TCState :=
  ⟨List.replicate FREE_LIST_SIZE [], List.replicate FREE_LIST_SIZE 0⟩

/-- Result of `ThreadCache::allocate`: `sys size` models the oversize path
`return malloc(size)`; `ptr p` models a pooled pointer (`none` = `nullptr`). -/
inductive AllocResult where
  | sys : Nat → AllocResult
  | ptr : Option Nat → AllocResult
deriving DecidableEq, Repr

namespace ThreadCache

/-- `ThreadCache::fetchFromCentralCache` (ThreadCache.cc lines 37-62), with the
chain answered by `CentralCache::fetchRange` supplied as the oracle argument
`central` (`[]` = null).  On a non-null chain the head is returned,
`free_list_[index]` is set to the chain's second element, and the whole chain
is walked once to count `batch_num`, which is added to `free_list_size_[index]`
in `size_t` arithmetic. -/
def fetchFromCentralCache (st : TCState) (index : Nat) (central : List Nat) :
    Option Nat × TCState × List CCall :=
  match central with
  | [] => (none, st, [CCall.fetchRange index])
  | r :: rest =>
    let cnt := (st.free_list_size.getD index 0 + central.length) % W64
    (some r,
     { free_list := st.free_list.set index rest,
       free_list_size := st.free_list_size.set index cnt },
     [CCall.fetchRange index])

/-- `ThreadCache::allocate` (ThreadCache.cc lines 9-35), embedded exactly as
written: size 0 is normalized to `ALIGNMENT`; oversize goes to `malloc`;
otherwise `free_list_size_[index]` is decremented unconditionally, then a
non-empty local list is popped but the popped pointer is DISCARDED (the source
has no `return` in that branch), and `fetchFromCentralCache` runs
unconditionally. -/
def allocate (st : TCState) (size : Nat) (central : List Nat) :
    AllocResult × TCState × List CCall :=
  let size := if size = 0 then ALIGNMENT else size
  if MAX_BYTES < size then (AllocResult.sys size, st, [])
  else
    let index := SizeClass.getIndex size
    let dec := (st.free_list_size.getD index 0 + (W64 - 1)) % W64
    let st : TCState := { st with free_list_size := st.free_list_size.set index dec }
    let st : TCState :=
      match st.free_list.getD index [] with
      | [] => st
      | _ :: rest => { st with free_list := st.free_list.set index rest }
    let out := fetchFromCentralCache st index central
    (AllocResult.ptr out.1, out.2)

/-- `ThreadCache::sholdReturnToCentralCache` (ThreadCache.cc lines 64-69). -/
def sholdReturnToCentralCache (st : TCState) (index : Nat) : Bool :=
  256 < st.free_list_size.getD index 0

/-- `ThreadCache::returnTocentralCache` (ThreadCache.cc lines 95-144).
`start` is the chain passed in (the caller passes `free_list_[index]`).
`batch_num` is read from the counter; `keep_num = max(batch_num/4, 1)`.
The walk of `keep_num - 1` steps finds `split_node`; it hits `nullptr`
exactly when the chain has fewer than `keep_num` nodes, in which case the
source's `if (split_node != nullptr)` block is skipped and nothing changes.
Otherwise the chain is cut after `keep_num` nodes, the local list and counter
are updated, and the rest is handed to `rerurnRange` when it is non-empty and
`return_num > 0` (the byte count is `return_num * aligned_size` in `size_t`). -/
def returnTocentralCache (st : TCState) (start : List Nat) (size : Nat) :
    TCState × List CCall :=
  let index := SizeClass.getIndex size
  let aligned_size := SizeClass.roundUp size
  let batch_num := st.free_list_size.getD index 0
  if batch_num ≤ 1 then (st, [])
  else
    let keep_num := max (batch_num / 4) 1
    let return_num := batch_num - keep_num
    if start.length < keep_num then (st, [])
    else
      let next_node := start.drop keep_num
      let st : TCState :=
        { free_list := st.free_list.set index (start.take keep_num),
          free_list_size := st.free_list_size.set index keep_num }
      if 0 < return_num ∧ next_node ≠ [] then
        (st, [CCall.rerurnRange next_node ((return_num * aligned_size) % W64) index])
      else (st, [])

/-- `ThreadCache::deallocate` (ThreadCache.cc lines 71-93): oversize goes to
`free`; otherwise the pointer is pushed onto the local chain, the counter is
incremented, and the return policy is evaluated on the updated state. -/
def deallocate (st : TCState) (ptr : Nat) (size : Nat) : TCState × List CCall :=
  if MAX_BYTES < size then (st, [])
  else
    let index := SizeClass.getIndex size
    let cnt := (st.free_list_size.getD index 0 + 1) % W64
    let st : TCState :=
      { free_list := st.free_list.set index (ptr :: st.free_list.getD index []),
        free_list_size := st.free_list_size.set index cnt }
    if sholdReturnToCentralCache st index then
      returnTocentralCache st (st.free_list.getD index []) size
    else (st, [])

/-- One client-visible operation on a `ThreadCache`: an `allocate(size)` call
together with the chain `CentralCache::fetchRange` would answer, or a
`deallocate(ptr, size)` call. -/
inductive TCOp where
  | alloc : Nat → List Nat → TCOp
  | dealloc : Nat → Nat → TCOp
deriving DecidableEq, Repr

/-- Run one operation. -/
def step (st : TCState) (op : TCOp) : TCState × List CCall :=
  match op with
  | TCOp.alloc size central =>
    let out := allocate st size central
    (out.2.1, out.2.2)
  | TCOp.dealloc ptr size => deallocate st ptr size

/-- Run a sequence of operations, accumulating every call made to
`CentralCache` along the way. -/
def run (st : TCState) : List TCOp → TCState × List CCall
  | [] => (st, [])
  | op :: ops =>
    let out := step st op
    let rest := run out.1 ops
    (rest.1, out.2 ++ rest.2)

end ThreadCache

end SupperPool

namespace ZPmemoryPool

/-- `#define MEMORY_POOL_NUM 64` (ZPmemoryPool.h, both generations). -/
def MEMORY_POOL_NUM : Nat := 64

/-- `#define SLOT_BASE_SIZE 8` (ZPmemoryPool.h, both generations). -/
def SLOT_BASE_SIZE : Nat := 8

/-- `#define MAX_SLOT_SIZE 512` (ZPmemoryPool.h, both generations). -/
def MAX_SLOT_SIZE : Nat := 512

/-- State of one generation-1 `MemoryPool` (identical member lists in
`src/version1/ZPmemoryPool.h` and `src/include/ZPmemoryPool.h`).  Pointer
members hold addresses, with 0 for `nullptr`; `first_block` is the intrusive
head-inserted list of raw block base addresses; `free_list` is the intrusive
chain of freed slot addresses.  The two mutexes have no sequential content
and are omitted. -/
structure MPState where
  block_size : Nat
  slot_size : Nat
  first_block : List Nat
  current_slot : Nat
  free_list : List Nat
  last_slot : Nat
deriving DecidableEq, Repr

/-- The `MemoryPool(size_t block_size_ = 4096)` constructor of
`src/version1/ZPmemoryPool.cc`, which zeroes every other member.  (The older
`src/src` constructor leaves the pointer members indeterminate, but every
modelled trace begins with `init`, which overwrites all of them.) -/
def mpNew (block_size : Nat := 4096) : MPState :=
  ⟨block_size, 0, [], 0, [], 0⟩

instance : Inhabited MPState := ⟨mpNew⟩

/-- `MemoryPool::PadPointer` (identical in both generation-1 sources):
`(align - reinterpret_cast<size_t>(p)) % align`, where the subtraction is
unsigned 64-bit wraparound. -/
def padPointer (p align : Nat) : Nat :=
  ((align + (W64 - p % W64)) % W64) % align

namespace MemoryPool

/-- `MemoryPool::init` (identical in `src/version1/ZPmemoryPool.cc` lines
27-34 and `src/src/ZPmemoryPool.cc` lines 24-31): `assert(size > 0)` then
reset slot size and all four pointers.  The assertion failure on size 0 is
modelled as `none`. -/
def init (st : MPState) (size : Nat) : Option MPState :=
  if size = 0 then none
  else some { st with slot_size := size, first_block := [], current_slot := 0,
                      free_list := [], last_slot := 0 }

/-- `MemoryPool::AllocateNewBlock` (`src/version1/ZPmemoryPool.cc` lines
74-91), with the address `operator new(block_size_)` returns supplied as the
oracle argument `fresh`: head-insert the block, compute the alignment padding
of `body = fresh + sizeof(Slot*)`, set the cursor to the padded body and the
sentinel to `block_end - slot_size_` (the sources only use block sizes that
exceed the slot size, so plain subtraction is exact). -/
def allocateNewBlock (st : MPState) (fresh : Nat) : MPState :=
  let body := (fresh + 8) % W64
  let padding := padPointer body st.slot_size
  { st with first_block := fresh :: st.first_block,
            current_slot := (body + padding) % W64,
            last_slot := (fresh + st.block_size - st.slot_size) % W64 }

/-- `MemoryPool::Allocate` (`src/version1/ZPmemoryPool.cc` lines 36-62):
pop the free list if non-empty and return the head; otherwise grow when
`current_slot_ == nullptr || current_slot_ > last_slot_`, then return the
cursor and bump it by `slot_size_` bytes. -/
def Allocate (st : MPState) (fresh : Nat) : Nat × MPState :=
  match st.free_list with
  | p :: rest => (p, { st with free_list := rest })
  | [] =>
    let st :=
      if st.current_slot = 0 ∨ st.last_slot < st.current_slot then
        allocateNewBlock st fresh
      else st
    (st.current_slot, { st with current_slot := (st.current_slot + st.slot_size) % W64 })

/-- `MemoryPool::Deallocate` (`src/version1/ZPmemoryPool.cc` lines 64-72):
head-insert a non-null pointer into the free list; no-op on null. -/
def Deallocate (st : MPState) (ptr : Nat) : MPState :=
  if ptr ≠ 0 then { st with free_list := ptr :: st.free_list } else st

end MemoryPool

namespace MemoryPoolOld

/-- `MemoryPool::AllocateNewBlock` of the older generation-1 pool
(`src/src/ZPmemoryPool.cc` lines 71-84): head-insert the block, set the
cursor to `new_block + block_size_ - slot_size_ + 1`, and CLEAR the free
list; `body`/`padding` are computed by the source but never used, and
`last_slot_` is never assigned. -/
def allocateNewBlock (st : MPState) (fresh : Nat) : MPState :=
  { st with first_block := fresh :: st.first_block,
            current_slot := (fresh + st.block_size - st.slot_size + 1) % W64,
            free_list := [] }

/-- `MemoryPool::Allocate` of the older pool (`src/src/ZPmemoryPool.cc` lines
33-59): same free-list pop; otherwise grow when
`current_slot_ >= last_slot_` (raw pointer comparison, `nullptr` = address 0),
then return the cursor and bump it by `slot_size_ / sizeof(Slot)` nodes of 8
bytes each, i.e. by `slot_size_ / 8 * 8` bytes. -/
def Allocate (st : MPState) (fresh : Nat) : Nat × MPState :=
  match st.free_list with
  | p :: rest => (p, { st with free_list := rest })
  | [] =>
    let st :=
      if st.last_slot ≤ st.current_slot then allocateNewBlock st fresh else st
    (st.current_slot,
     { st with current_slot := (st.current_slot + st.slot_size / 8 * 8) % W64 })

/-- `MemoryPool::Deallocate` of the older pool (`src/src/ZPmemoryPool.cc`
lines 61-69); the state effect is the same head insertion (the source's
missing `return` in a `void*` function has no bearing on the state). -/
def Deallocate (st : MPState) (ptr : Nat) : MPState :=
  if ptr ≠ 0 then { st with free_list := ptr :: st.free_list } else st

end MemoryPoolOld

namespace HashBucket

/-- `HashBucket::getMemoryPool` (`src/version1/ZPmemoryPool.cc` lines
108-115): `throw std::out_of_range` when `index < 0 || index >= 64`,
otherwise hand out (a reference to) the static pool with that index.  The
accessor reads no pool state; it is modelled as the pure selector of the
in-range pool number, with the throw as `Except.error`. -/
def getMemoryPool (index : Int) : Except String Nat :=
  if index < 0 ∨ MEMORY_POOL_NUM ≤ index then
    Except.error "MemoryPool index out of range"
  else Except.ok index.toNat

/-- The bucket index `((size + 7) / SLOT_BASE_SIZE) - 1` computed inside
`useMemory`/`freeMemory` (`src/version1/ZPmemoryPool.h` lines 156 and 169).
Both call sites guard `size ≥ 1`, so `(size + 7) / 8 ≥ 1` and the `size_t`
subtraction cannot wrap; the value fits an `int`. -/
def bucketIndex (size : Nat) : Nat := (size + 7) / SLOT_BASE_SIZE - 1

/-- Result of `HashBucket::useMemory`: `null` for the size-0 early return,
`sys size` for the oversize `operator new(size)` path, `pooled p` for a slot
handed out by the routed pool. -/
inductive UseResult where
  | null
  | sys : Nat → UseResult
  | pooled : Nat → UseResult
deriving DecidableEq, Repr

/-- Effect of `HashBucket::freeMemory`: `nullNoop` for the null-pointer early
return, `sysDelete` for the oversize `operator delete(ptr)` path, `pooled`
for a slot pushed back to the routed pool. -/
inductive FreeEffect where
  | nullNoop
  | sysDelete
  | pooled
deriving DecidableEq, Repr

/-- `HashBucket::useMemory` (`src/version1/ZPmemoryPool.h` lines 148-157)
over the array `pools` of the 64 static per-class pools, with the fresh block
address for a potential pool growth supplied as the oracle `fresh`:
size 0 (`size <= 0` on a `size_t`) returns null untouched; oversize goes to
`operator new`; otherwise route through `getMemoryPool` and `Allocate`. -/
def useMemory (pools : List MPState) (size : Nat) (fresh : Nat) :
    Except String (UseResult × List MPState) :=
  if size = 0 then Except.ok (UseResult.null, pools)
  else if MAX_SLOT_SIZE < size then Except.ok (UseResult.sys size, pools)
  else
    match getMemoryPool (bucketIndex size : Nat) with
    | Except.error e => Except.error e
    | Except.ok i =>
      let out := MemoryPool.Allocate (pools.getD i default) fresh
      Except.ok (UseResult.pooled out.1, pools.set i out.2)

/-- `HashBucket::freeMemory` (`src/version1/ZPmemoryPool.h` lines 159-170):
null pointer returns untouched; oversize goes to `operator delete`; otherwise
route through `getMemoryPool` and `Deallocate`. -/
def freeMemory (pools : List MPState) (ptr : Nat) (size : Nat) :
    Except String (FreeEffect × List MPState) :=
  if ptr = 0 then Except.ok (FreeEffect.nullNoop, pools)
  else if MAX_SLOT_SIZE < size then Except.ok (FreeEffect.sysDelete, pools)
  else
    match getMemoryPool (bucketIndex size : Nat) with
    | Except.error e => Except.error e
    | Except.ok i =>
      Except.ok (FreeEffect.pooled,
        pools.set i (MemoryPool.Deallocate (pools.getD i default) ptr))

end HashBucket

end ZPmemoryPool

section ConcreteInputs

open SupperPool ZPmemoryPool

/-- A `ThreadCache` whose class-0 local free list holds the two slots 5 and 6
(occupancy counter 2), every other class empty: a state in which the claimed
fast path of `allocate(8)` should pop slot 5 and stay local. -/
def c1State : SupperPool.TCState :=
  ⟨[5, 6] :: List.replicate 31 [], 2 :: List.replicate 31 0⟩

/-- An operation sequence on a fresh `ThreadCache`, all of class 0 (size 8):
an `allocate(8)` answered by a 193-slot chain from CentralCache, an
`allocate(8)` answered by a 65-slot chain (this one takes the non-empty-list
path, so the popped head is lost and the counter inflates to 256 while only
64 slots remain), then one `deallocate(777, 8)` pushing the counter to 257. -/
def c4Trace : List SupperPool.ThreadCache.TCOp :=
  SupperPool.ThreadCache.TCOp.alloc 8 ((List.range 193).map (fun i => 1000 + i)) ::
    SupperPool.ThreadCache.TCOp.alloc 8 ((List.range 65).map (fun i => 2000 + i)) ::
    [SupperPool.ThreadCache.TCOp.dealloc 777 8]

/-- A generation-1 pool right after `MemoryPool()` (block size 4096) and
`init(8)`. -/
def c9s0 : ZPmemoryPool.MPState :=
  (ZPmemoryPool.MemoryPool.init (ZPmemoryPool.mpNew 4096) 8).getD ZPmemoryPool.mpNew

/-- A `ThreadCache` state for the C3/C5 witnesses: class 0 holds the 256
slots `1000, ..., 1255` with an exact occupancy counter of 256. -/
def c3State : SupperPool.TCState :=
  ⟨((List.range 256).map (fun i => 1000 + i)) :: List.replicate 31 [],
   256 :: List.replicate 31 0⟩

/-- A `ThreadCache` state whose class-0 counter (256) vastly overstates the
single slot 55 actually chained — the shape repeated buggy `allocate` calls
leave behind.  Pushing one more slot takes the counter to 257 with only two
slots present, fewer than the retention quota `max(257/4, 1) = 64`. -/
def c3ShortState : SupperPool.TCState :=
  ⟨[55] :: List.replicate 31 [], 256 :: List.replicate 31 0⟩

end ConcreteInputs

-- sanity examples on the embedded size-class arithmetic
example : SupperPool.SizeClass.getIndex 8 = 0 := by decide
example : SupperPool.SizeClass.getIndex 256 = 31 := by decide
example : SupperPool.SizeClass.roundUp 8 = 8 := by decide
example : SupperPool.SizeClass.roundUp 13 = 16 := by decide
example : W64 = 2 ^ 64 := by norm_num [W64]

/-! ## Helper lemmas -/

theorem getD_set_self {α : Type} (l : List α) (i : Nat) (a d : α)
    (h : i < l.length) : (l.set i a).getD i d = a := by
  simp [List.getD, List.getElem?_set_self, h]

theorem getIndex_lt (size : Nat) (h : size ≤ SupperPool.MAX_BYTES) :
    SupperPool.SizeClass.getIndex size < SupperPool.FREE_LIST_SIZE := by
  simp only [SupperPool.SizeClass.getIndex, SupperPool.ALIGNMENT, W64,
    SupperPool.FREE_LIST_SIZE, SupperPool.MAX_BYTES] at *
  omega

theorem getMemoryPool_ok (i : Nat) (h : i < ZPmemoryPool.MEMORY_POOL_NUM) :
    ZPmemoryPool.HashBucket.getMemoryPool i = Except.ok i := by
  simp only [ZPmemoryPool.HashBucket.getMemoryPool, ZPmemoryPool.MEMORY_POOL_NUM] at *
  rw [if_neg]
  · simp
  · push_cast
    omega

theorem bucketIndex_lt (s : Nat) (h : s ≤ ZPmemoryPool.MAX_SLOT_SIZE) :
    ZPmemoryPool.HashBucket.bucketIndex s < ZPmemoryPool.MEMORY_POOL_NUM := by
  simp only [ZPmemoryPool.HashBucket.bucketIndex, ZPmemoryPool.SLOT_BASE_SIZE,
    ZPmemoryPool.MEMORY_POOL_NUM, ZPmemoryPool.MAX_SLOT_SIZE] at *
  omega

/-- Behaviour of `ThreadCache::returnTocentralCache` on a chain of at least
`keep_num` nodes, with the class counter reading `n > 256`: the local list
becomes the first `max(n/4, 1)` chain nodes, the counter becomes
`max(n/4, 1)`, and the tail past the split point is handed to `rerurnRange`
exactly when it is non-empty. -/
theorem returnTocentral_spec (st1 : SupperPool.TCState) (chain : List Nat) (size n : Nat)
    (hn : st1.free_list_size.getD (SupperPool.SizeClass.getIndex size) 0 = n)
    (hgt : 256 < n)
    (hkeep : max (n / 4) 1 ≤ chain.length) :
    SupperPool.ThreadCache.returnTocentralCache st1 chain size =
      ({ free_list := st1.free_list.set (SupperPool.SizeClass.getIndex size)
            (chain.take (max (n / 4) 1)),
         free_list_size := st1.free_list_size.set (SupperPool.SizeClass.getIndex size)
            (max (n / 4) 1) },
       if max (n / 4) 1 < chain.length then
         [SupperPool.CCall.rerurnRange (chain.drop (max (n / 4) 1))
           ((n - max (n / 4) 1) * SupperPool.SizeClass.roundUp size % W64)
           (SupperPool.SizeClass.getIndex size)]
       else []) := by
  simp only [SupperPool.ThreadCache.returnTocentralCache, hn]
  rw [if_neg (by omega), if_neg (not_lt.mpr hkeep)]
  by_cases hlt : max (n / 4) 1 < chain.length
  · rw [if_pos ⟨by omega, by rw [Ne, List.drop_eq_nil_iff]; omega⟩, if_pos hlt]
  · rw [if_neg, if_neg hlt]
    intro hcond
    rcases hcond with ⟨-, hne2⟩
    apply hne2
    rw [List.drop_eq_nil_iff]
    omega

/-! ## Claim theorems -/

/-- C1: the claim says that for `0 < s ≤ MAX_BYTES`, when the local free list
of the computed class is non-empty, `ThreadCache::allocate(s)` returns the
popped head and does not contact CentralCache.  The code does the opposite:
it pops the head, discards it, and calls `fetchFromCentralCache`
unconditionally (the pop branch has no `return`).  On the state `c1State`
(class-0 list `[5, 6]`), `allocate(8)` emits a `fetchRange` call and returns
the CentralCache-supplied slot 1000 instead of 5; if CentralCache answers
null it even returns null while slot 6 still sits in the local list. -/
theorem C1_allocate_ignores_local_list :
    (SupperPool.ThreadCache.allocate c1State 8 [1000, 1001]).1 =
      SupperPool.AllocResult.ptr (some 1000) ∧
    (SupperPool.ThreadCache.allocate c1State 8 [1000, 1001]).2.2 =
      [SupperPool.CCall.fetchRange 0] ∧
    (SupperPool.ThreadCache.allocate c1State 8 []).1 =
      SupperPool.AllocResult.ptr none ∧
    (SupperPool.ThreadCache.allocate c1State 8 []).2.2 =
      [SupperPool.CCall.fetchRange 0] ∧
    (SupperPool.ThreadCache.allocate c1State 8 []).2.1.free_list.getD 0 [] = [6] := by
  decide

/-- C2 counterexample: the claim says `ThreadCache::allocate(0)` returns null
without touching any free list.  On a fresh cache with CentralCache answering
`[1000, 1001]`, `allocate(0)` returns slot 1000 (not null) and changes the
state (class-0 list becomes `[1001]`, counter 1). -/
theorem C2_cex :
    (SupperPool.ThreadCache.allocate SupperPool.initTC 0 [1000, 1001]).1 ≠
      SupperPool.AllocResult.ptr none ∧
    (SupperPool.ThreadCache.allocate SupperPool.initTC 0 [1000, 1001]).2.1 ≠
      SupperPool.initTC := by
  decide

/-- C2 amended: `HashBucket::useMemory(0)` does return null leaving every
pool untouched, but `ThreadCache::allocate(0)` normalizes the size to
`ALIGNMENT` and behaves exactly like `allocate(ALIGNMENT)`, touching the
class-0 free list. -/
theorem C2_amended :
    (∀ (pools : List ZPmemoryPool.MPState) (fresh : Nat),
      ZPmemoryPool.HashBucket.useMemory pools 0 fresh =
        Except.ok (ZPmemoryPool.HashBucket.UseResult.null, pools)) ∧
    (∀ (st : SupperPool.TCState) (central : List Nat),
      SupperPool.ThreadCache.allocate st 0 central =
        SupperPool.ThreadCache.allocate st SupperPool.ALIGNMENT central) := by
  constructor
  · intro pools fresh
    rfl
  · intro st central
    rfl

/-- C4: the claim says no batch of fewer than two slots is ever passed to
CentralCache's return operation, in any reachable state.  The trace
`c4Trace` is reachable from the zero-initialized cache (its CentralCache
answers are ordinary chains), yet its final `deallocate` hands
`rerurnRange` the singleton chain `[2064]`: the missing `return` in
`allocate` inflates the class-0 counter to 257 while only 65 slots are
actually present, so the quarter-retention split keeps 64 and returns the
single remaining slot. -/
theorem C4_singleton_batch_returned :
    (SupperPool.ThreadCache.run SupperPool.initTC c4Trace).2 =
      SupperPool.CCall.fetchRange 0 :: SupperPool.CCall.fetchRange 0 ::
        [SupperPool.CCall.rerurnRange [2064] 1544 0] ∧
    (SupperPool.ThreadCache.run SupperPool.initTC c4Trace).1.free_list_size.getD 0 0 = 64 := by
  decide

/-- C6: for `1 ≤ s ≤ 256`, `SizeClass::getIndex(s)` satisfies
`8 * k < s ≤ 8 * (k + 1)` — which characterizes `k = ceil(s/8) - 1` — stays
below `FREE_LIST_SIZE = 32`, and coincides with the routing index of
`HashBucket::useMemory`; for `1 ≤ s ≤ 512` the routing index satisfies the
same ceiling characterization and stays below `MEMORY_POOL_NUM = 64`. -/
theorem C6_index_formula :
    (∀ s : Nat, 0 < s → s ≤ SupperPool.MAX_BYTES →
      SupperPool.ALIGNMENT * SupperPool.SizeClass.getIndex s < s ∧
      s ≤ SupperPool.ALIGNMENT * (SupperPool.SizeClass.getIndex s + 1) ∧
      SupperPool.SizeClass.getIndex s < SupperPool.FREE_LIST_SIZE ∧
      SupperPool.SizeClass.getIndex s = ZPmemoryPool.HashBucket.bucketIndex s) ∧
    (∀ s : Nat, 0 < s → s ≤ ZPmemoryPool.MAX_SLOT_SIZE →
      ZPmemoryPool.SLOT_BASE_SIZE * ZPmemoryPool.HashBucket.bucketIndex s < s ∧
      s ≤ ZPmemoryPool.SLOT_BASE_SIZE * (ZPmemoryPool.HashBucket.bucketIndex s + 1) ∧
      ZPmemoryPool.HashBucket.bucketIndex s < ZPmemoryPool.MEMORY_POOL_NUM) := by
  constructor
  · intro s h1 h2
    simp only [SupperPool.SizeClass.getIndex, SupperPool.ALIGNMENT, W64,
      SupperPool.FREE_LIST_SIZE, SupperPool.MAX_BYTES,
      ZPmemoryPool.HashBucket.bucketIndex, ZPmemoryPool.SLOT_BASE_SIZE] at *
    omega
  · intro s h1 h2
    simp only [ZPmemoryPool.HashBucket.bucketIndex, ZPmemoryPool.SLOT_BASE_SIZE,
      ZPmemoryPool.MEMORY_POOL_NUM, ZPmemoryPool.MAX_SLOT_SIZE] at *
    omega

/-- C6 witness: the C6 theorem applied at sizes 100 and 500. -/
theorem C6_index_formula_witness :
    (SupperPool.ALIGNMENT * SupperPool.SizeClass.getIndex 100 < 100 ∧
      100 ≤ SupperPool.ALIGNMENT * (SupperPool.SizeClass.getIndex 100 + 1) ∧
      SupperPool.SizeClass.getIndex 100 < SupperPool.FREE_LIST_SIZE ∧
      SupperPool.SizeClass.getIndex 100 = ZPmemoryPool.HashBucket.bucketIndex 100) ∧
    (ZPmemoryPool.SLOT_BASE_SIZE * ZPmemoryPool.HashBucket.bucketIndex 500 < 500 ∧
      500 ≤ ZPmemoryPool.SLOT_BASE_SIZE * (ZPmemoryPool.HashBucket.bucketIndex 500 + 1) ∧
      ZPmemoryPool.HashBucket.bucketIndex 500 < ZPmemoryPool.MEMORY_POOL_NUM) :=
  ⟨C6_index_formula.1 100 (by decide) (by decide),
   C6_index_formula.2 500 (by decide) (by decide)⟩

/-- C7: for every size above `MAX_SLOT_SIZE`, `useMemory` goes straight to
`operator new` and `freeMemory` (on a non-null pointer) straight to
`operator delete`, and both leave the array of per-class pools exactly as it
was. -/
theorem C7_oversize_bypass :
    ∀ (pools : List ZPmemoryPool.MPState) (size fresh ptr : Nat),
      ZPmemoryPool.MAX_SLOT_SIZE < size → 0 < ptr →
      ZPmemoryPool.HashBucket.useMemory pools size fresh =
        Except.ok (ZPmemoryPool.HashBucket.UseResult.sys size, pools) ∧
      ZPmemoryPool.HashBucket.freeMemory pools ptr size =
        Except.ok (ZPmemoryPool.HashBucket.FreeEffect.sysDelete, pools) := by
  intro pools size fresh ptr hsz hptr
  have h0 : ¬ size = 0 := by
    simp only [ZPmemoryPool.MAX_SLOT_SIZE] at hsz
    omega
  have hp0 : ¬ ptr = 0 := by omega
  constructor
  · simp [ZPmemoryPool.HashBucket.useMemory, h0, hsz]
  · simp [ZPmemoryPool.HashBucket.freeMemory, hp0, hsz]

/-- C7 witness: the C7 theorem applied to the empty pool array, size 513,
pointer 1. -/
theorem C7_oversize_bypass_witness :
    ZPmemoryPool.HashBucket.useMemory [] 513 0 =
      Except.ok (ZPmemoryPool.HashBucket.UseResult.sys 513, []) ∧
    ZPmemoryPool.HashBucket.freeMemory [] 1 513 =
      Except.ok (ZPmemoryPool.HashBucket.FreeEffect.sysDelete, []) :=
  C7_oversize_bypass [] 513 0 1 (by decide) (by decide)

/-- C8: `HashBucket::getMemoryPool(i)` throws its out-of-range error exactly
when `i < 0` or `i ≥ MEMORY_POOL_NUM`, otherwise it hands out pool `i`
(modelled as the pure selector of pool number `i`, since the accessor touches
no pool state); and `MemoryPool::init(0)` fails its `assert(size > 0)`
(modelled as `none`) instead of configuring a zero slot size. -/
theorem C8_fail_fast :
    (∀ i : Int, ZPmemoryPool.HashBucket.getMemoryPool i =
        Except.error "MemoryPool index out of range" ↔
        (i < 0 ∨ (ZPmemoryPool.MEMORY_POOL_NUM : Int) ≤ i)) ∧
    (∀ i : Int, 0 ≤ i → i < (ZPmemoryPool.MEMORY_POOL_NUM : Int) →
      ZPmemoryPool.HashBucket.getMemoryPool i = Except.ok i.toNat) ∧
    (∀ st : ZPmemoryPool.MPState, ZPmemoryPool.MemoryPool.init st 0 = none) := by
  refine ⟨?_, ?_, ?_⟩
  · intro i
    by_cases h : i < 0 ∨ (ZPmemoryPool.MEMORY_POOL_NUM : Int) ≤ i
    · simp [ZPmemoryPool.HashBucket.getMemoryPool, h]
    · simp [ZPmemoryPool.HashBucket.getMemoryPool, h]
  · intro i h1 h2
    rw [ZPmemoryPool.HashBucket.getMemoryPool, if_neg]
    omega
  · intro st
    rfl

/-- C8 witness: the C8 theorem applied at index 3 and at index 64. -/
theorem C8_fail_fast_witness :
    ZPmemoryPool.HashBucket.getMemoryPool 3 = Except.ok 3 ∧
    ZPmemoryPool.HashBucket.getMemoryPool 64 =
      Except.error "MemoryPool index out of range" :=
  ⟨C8_fail_fast.2.1 3 (by decide) (by decide),
   (C8_fail_fast.1 64).mpr (by decide)⟩

/-- C9 counterexample: the two generation-1 pools, run from the same
constructed-and-`init(8)` state with the same fresh-block oracle, disagree
already on the first `Allocate`: the `version1` pool returns the padded
block body `8000 + 8 = 8008`, the older `src/src` pool returns
`8000 + 4096 - 8 + 1 = 12089`; and after a second `Allocate` the `version1`
pool still owns one block while the older pool (whose sentinel is never set)
has grown a second one. -/
theorem C9_cex :
    (ZPmemoryPool.MemoryPool.Allocate c9s0 8000).1 ≠
      (ZPmemoryPool.MemoryPoolOld.Allocate c9s0 8000).1 ∧
    (ZPmemoryPool.MemoryPool.Allocate
        (ZPmemoryPool.MemoryPool.Allocate c9s0 8000).2 9000).2.first_block ≠
      (ZPmemoryPool.MemoryPoolOld.Allocate
        (ZPmemoryPool.MemoryPoolOld.Allocate c9s0 8000).2 9000).2.first_block := by
  decide

/-- C9 amended: the two generation-1 pools are not observationally
equivalent; they agree exactly on the recycling surface — `Deallocate` is the
same head insertion, and an `Allocate` that finds a non-empty free list pops
its head identically — while the bump/growth paths diverge (see `C9_cex`). -/
theorem C9_agree_on_free_list_path :
    (∀ (st : ZPmemoryPool.MPState) (fresh p : Nat) (rest : List Nat),
      st.free_list = p :: rest →
      ZPmemoryPool.MemoryPool.Allocate st fresh =
        ZPmemoryPool.MemoryPoolOld.Allocate st fresh) ∧
    (∀ (st : ZPmemoryPool.MPState) (ptr : Nat),
      ZPmemoryPool.MemoryPool.Deallocate st ptr =
        ZPmemoryPool.MemoryPoolOld.Deallocate st ptr) := by
  constructor
  · intro st fresh p rest h
    simp [ZPmemoryPool.MemoryPool.Allocate, ZPmemoryPool.MemoryPoolOld.Allocate, h]
  · intro st ptr
    rfl

/-- C9 witness: the amended-claim theorem applied to a pool whose free list
is `[7, 9]`. -/
theorem C9_agree_witness :
    ZPmemoryPool.MemoryPool.Allocate ⟨4096, 8, [], 0, [7, 9], 0⟩ 8000 =
      ZPmemoryPool.MemoryPoolOld.Allocate ⟨4096, 8, [], 0, [7, 9], 0⟩ 8000 :=
  C9_agree_on_free_list_path.1 ⟨4096, 8, [], 0, [7, 9], 0⟩ 8000 7 [9] rfl

/-- C10: for every size `0 < s ≤ MAX_SLOT_SIZE` the bucket index computed by
`useMemory`/`freeMemory` lies below `MEMORY_POOL_NUM`, so the throwing branch
of `getMemoryPool` is unreachable from either entry point: both calls
succeed (return `Except.ok`) for every pool array, fresh-block address and
pointer. -/
theorem C10_no_throw_in_range :
    ∀ (pools : List ZPmemoryPool.MPState) (s fresh ptr : Nat),
      0 < s → s ≤ ZPmemoryPool.MAX_SLOT_SIZE →
      ZPmemoryPool.HashBucket.bucketIndex s < ZPmemoryPool.MEMORY_POOL_NUM ∧
      (∃ out, ZPmemoryPool.HashBucket.useMemory pools s fresh = Except.ok out) ∧
      (∃ out, ZPmemoryPool.HashBucket.freeMemory pools ptr s = Except.ok out) := by
  intro pools s fresh ptr h1 h2
  have hidx := bucketIndex_lt s h2
  have hok := getMemoryPool_ok _ hidx
  have h0 : ¬ s = 0 := by omega
  have hbig : ¬ ZPmemoryPool.MAX_SLOT_SIZE < s := by omega
  refine ⟨hidx, ?_, ?_⟩
  · simp only [ZPmemoryPool.HashBucket.useMemory, if_neg h0, if_neg hbig, hok]
    exact ⟨_, rfl⟩
  · by_cases hp : ptr = 0
    · simp only [ZPmemoryPool.HashBucket.freeMemory, if_pos hp]
      exact ⟨_, rfl⟩
    · simp only [ZPmemoryPool.HashBucket.freeMemory, if_neg hp, if_neg hbig, hok]
      exact ⟨_, rfl⟩

/-- C10 witness: the C10 theorem applied to the empty pool array at size
512. -/
theorem C10_no_throw_witness :
    ZPmemoryPool.HashBucket.bucketIndex 512 < ZPmemoryPool.MEMORY_POOL_NUM ∧
    (∃ out, ZPmemoryPool.HashBucket.useMemory [] 512 4096 = Except.ok out) ∧
    (∃ out, ZPmemoryPool.HashBucket.freeMemory [] 17 512 = Except.ok out) :=
  C10_no_throw_in_range [] 512 4096 17 (by decide) (by decide)

/-- C5: when `ThreadCache::allocate` finds the local list of the computed
class empty with its occupancy counter at 0 and CentralCache answers a chain
`c :: cs` of `k = cs.length + 1 ≥ 1` slots, the call returns the chain head,
seeds the local list with the remaining `cs`, and — the batch length having
been discovered by the walk embedded in `fetchFromCentralCache` — leaves the
occupancy counter at `(k - 1) % 2^64`, the exact `size_t` result of the
unconditional pre-decrement from 0 followed by the `+= k`. -/
theorem C5_replenish_counter :
    ∀ (st : SupperPool.TCState) (size c : Nat) (cs : List Nat),
      st.free_list.length = SupperPool.FREE_LIST_SIZE →
      st.free_list_size.length = SupperPool.FREE_LIST_SIZE →
      0 < size → size ≤ SupperPool.MAX_BYTES →
      st.free_list.getD (SupperPool.SizeClass.getIndex size) [] = [] →
      st.free_list_size.getD (SupperPool.SizeClass.getIndex size) 0 = 0 →
      (SupperPool.ThreadCache.allocate st size (c :: cs)).1 =
        SupperPool.AllocResult.ptr (some c) ∧
      (SupperPool.ThreadCache.allocate st size (c :: cs)).2.1.free_list_size.getD
        (SupperPool.SizeClass.getIndex size) 0 = ((c :: cs).length - 1) % W64 ∧
      (SupperPool.ThreadCache.allocate st size (c :: cs)).2.1.free_list.getD
        (SupperPool.SizeClass.getIndex size) [] = cs := by
  intro st size c cs hl1 hl2 h1 h2 h5 h6
  have hne : ¬ size = 0 := by omega
  have hgt : ¬ SupperPool.MAX_BYTES < size := by omega
  have hi := getIndex_lt size h2
  simp only [SupperPool.ThreadCache.allocate, if_neg hne, if_neg hgt,
    SupperPool.ThreadCache.fetchFromCentralCache, h5, h6]
  refine ⟨trivial, ?_, ?_⟩
  · rw [getD_set_self]
    · rw [getD_set_self _ _ _ _ (by rw [hl2]; exact hi)]
      simp only [List.length_cons, W64]
      omega
    · rw [List.length_set, hl2]
      exact hi
  · rw [getD_set_self]
    rw [hl1]
    exact hi

/-- C5 witness: the C5 theorem applied to the fresh cache, size 8,
CentralCache chain `[1, 2, 3]`. -/
theorem C5_replenish_witness :
    (SupperPool.ThreadCache.allocate SupperPool.initTC 8 (1 :: [2, 3])).1 =
      SupperPool.AllocResult.ptr (some 1) ∧
    (SupperPool.ThreadCache.allocate SupperPool.initTC 8 (1 :: [2, 3])).2.1.free_list_size.getD
      (SupperPool.SizeClass.getIndex 8) 0 = ((1 :: [2, 3]).length - 1) % W64 ∧
    (SupperPool.ThreadCache.allocate SupperPool.initTC 8 (1 :: [2, 3])).2.1.free_list.getD
      (SupperPool.SizeClass.getIndex 8) [] = [2, 3] :=
  C5_replenish_counter SupperPool.initTC 8 1 [2, 3] (by decide) (by decide)
    (by decide) (by decide) (by decide) (by decide)

/-- C3 counterexample: the claim says that whenever a `deallocate` push
takes a class's occupancy counter above 256 the cache performs one batch
return, setting the counter to the retained count, degrading only the split
to the actual chain length.  On `c3ShortState` (counter 256, one chained
slot), `deallocate(777, 8)` takes the counter to 257, yet the split walk
hits the chain's end before the 64-node retention quota, the source skips
its entire `if (split_node != nullptr)` block, no batch return is performed,
and the counter stays at the inflated 257 instead of the retained count. -/
theorem C3_cex :
    256 < (SupperPool.ThreadCache.deallocate c3ShortState 777 8).1.free_list_size.getD 0 0 ∧
    (SupperPool.ThreadCache.deallocate c3ShortState 777 8).2 = [] ∧
    (SupperPool.ThreadCache.deallocate c3ShortState 777 8).1.free_list_size.getD 0 0 = 257 ∧
    (SupperPool.ThreadCache.deallocate c3ShortState 777 8).1.free_list.getD 0 [] =
      [777, 55] := by
  decide

/-- C3 amended: when a `deallocate` push takes a class's occupancy counter
to `n > 256` (exact `size_t` value), the behaviour splits on the actual
chain length.  If the chain has at least `keep = max(n/4, 1)` nodes, the
cache retains the first `keep` nodes, sets the counter to `keep`, and —
when anything lies past the split point — hands CentralCache the rest as
one chain of `actual - keep` slots with byte count `(n - keep) *
roundUp(size)` (so in the consistent case `actual = n` exactly `n - keep`
slots go back, and on a shorter chain the batch degrades to the length
actually present); when the chain ends exactly at the split point nothing
is returned.  If the chain has fewer than `keep` nodes, the split walk hits
the chain's end, nothing is returned or trimmed, and the counter keeps its
inflated value `n`. -/
theorem C3_return_policy :
    ∀ (st : SupperPool.TCState) (ptr size : Nat),
      st.free_list.length = SupperPool.FREE_LIST_SIZE →
      st.free_list_size.length = SupperPool.FREE_LIST_SIZE →
      0 < size → size ≤ SupperPool.MAX_BYTES →
      let i := SupperPool.SizeClass.getIndex size
      let n := st.free_list_size.getD i 0 + 1
      let chain := ptr :: st.free_list.getD i []
      let keep := max (n / 4) 1
      n < W64 → 256 < n →
      ((keep ≤ chain.length →
        (SupperPool.ThreadCache.deallocate st ptr size).1.free_list_size.getD i 0 = keep ∧
        (SupperPool.ThreadCache.deallocate st ptr size).1.free_list.getD i [] =
          chain.take keep ∧
        (keep < chain.length →
          (SupperPool.ThreadCache.deallocate st ptr size).2 =
            [SupperPool.CCall.rerurnRange (chain.drop keep)
              ((n - keep) * SupperPool.SizeClass.roundUp size % W64) i]) ∧
        (chain.drop keep).length = chain.length - keep ∧
        (chain.length = keep → (SupperPool.ThreadCache.deallocate st ptr size).2 = [])) ∧
       (chain.length < keep →
        (SupperPool.ThreadCache.deallocate st ptr size).1.free_list_size.getD i 0 = n ∧
        (SupperPool.ThreadCache.deallocate st ptr size).1.free_list.getD i [] = chain ∧
        (SupperPool.ThreadCache.deallocate st ptr size).2 = [])) := by
  intro st ptr size hl1 hl2 h1 h2 i n chain keep hW hgt
  have hne : ¬ size = 0 := by omega
  have hbig : ¬ SupperPool.MAX_BYTES < size := by omega
  have hi : i < SupperPool.FREE_LIST_SIZE := getIndex_lt size h2
  have e2 : (st.free_list.set i chain).getD i [] = chain :=
    getD_set_self _ _ _ _ (by rw [hl1]; exact hi)
  have e1 : (st.free_list_size.set i (n % W64)).getD i 0 = n := by
    rw [getD_set_self _ _ _ _ (by rw [hl2]; exact hi)]
    exact Nat.mod_eq_of_lt hW
  simp only [SupperPool.ThreadCache.deallocate, if_neg hbig,
    SupperPool.ThreadCache.sholdReturnToCentralCache, e1, e2, decide_eq_true_eq]
  rw [if_pos hgt]
  constructor
  · intro hkeep
    rw [returnTocentral_spec _ chain size n e1 hgt hkeep]
    refine ⟨?_, ?_, ?_, ?_, ?_⟩
    · exact getD_set_self _ _ _ _ (by rw [List.length_set, hl2]; exact hi)
    · exact getD_set_self _ _ _ _ (by rw [List.length_set, hl1]; exact hi)
    · intro hlt
      rw [if_pos hlt]
    · exact List.length_drop _ _
    · intro heq
      rw [if_neg (by omega)]
  · intro hshort
    simp only [SupperPool.ThreadCache.returnTocentralCache, e1]
    rw [if_neg (by omega), if_pos hshort]
    exact ⟨e1, e2, rfl⟩

/-- C3 witness: the amended C3 theorem applied to `c3State` (class 0 holding
256 slots with an exact counter of 256; `deallocate(777, 8)` pushes the
occupancy to 257 and splits 64 / 193) and to `c3ShortState` (counter 256
but a single chained slot; the same push performs no return and leaves the
counter at 257). -/
theorem C3_return_witness :
    ((max ((c3State.free_list_size.getD (SupperPool.SizeClass.getIndex 8) 0 + 1) / 4) 1 ≤
        (777 :: c3State.free_list.getD (SupperPool.SizeClass.getIndex 8) []).length →
      (SupperPool.ThreadCache.deallocate c3State 777 8).1.free_list_size.getD
          (SupperPool.SizeClass.getIndex 8) 0 =
        max ((c3State.free_list_size.getD (SupperPool.SizeClass.getIndex 8) 0 + 1) / 4) 1 ∧
      (SupperPool.ThreadCache.deallocate c3State 777 8).1.free_list.getD
          (SupperPool.SizeClass.getIndex 8) [] =
        (777 :: c3State.free_list.getD (SupperPool.SizeClass.getIndex 8) []).take
          (max ((c3State.free_list_size.getD (SupperPool.SizeClass.getIndex 8) 0 + 1) / 4) 1) ∧
      (max ((c3State.free_list_size.getD (SupperPool.SizeClass.getIndex 8) 0 + 1) / 4) 1 <
          (777 :: c3State.free_list.getD (SupperPool.SizeClass.getIndex 8) []).length →
        (SupperPool.ThreadCache.deallocate c3State 777 8).2 =
          [SupperPool.CCall.rerurnRange
            ((777 :: c3State.free_list.getD (SupperPool.SizeClass.getIndex 8) []).drop
              (max ((c3State.free_list_size.getD (SupperPool.SizeClass.getIndex 8) 0 + 1) / 4) 1))
            (((c3State.free_list_size.getD (SupperPool.SizeClass.getIndex 8) 0 + 1) -
                max ((c3State.free_list_size.getD (SupperPool.SizeClass.getIndex 8) 0 + 1) / 4) 1) *
              SupperPool.SizeClass.roundUp 8 % W64)
            (SupperPool.SizeClass.getIndex 8)]) ∧
      ((777 :: c3State.free_list.getD (SupperPool.SizeClass.getIndex 8) []).drop
          (max ((c3State.free_list_size.getD (SupperPool.SizeClass.getIndex 8) 0 + 1) / 4) 1)).length =
        (777 :: c3State.free_list.getD (SupperPool.SizeClass.getIndex 8) []).length -
          max ((c3State.free_list_size.getD (SupperPool.SizeClass.getIndex 8) 0 + 1) / 4) 1 ∧
      ((777 :: c3State.free_list.getD (SupperPool.SizeClass.getIndex 8) []).length =
          max ((c3State.free_list_size.getD (SupperPool.SizeClass.getIndex 8) 0 + 1) / 4) 1 →
        (SupperPool.ThreadCache.deallocate c3State 777 8).2 = []))) ∧
    ((777 :: c3ShortState.free_list.getD (SupperPool.SizeClass.getIndex 8) []).length <
        max ((c3ShortState.free_list_size.getD (SupperPool.SizeClass.getIndex 8) 0 + 1) / 4) 1 →
      (SupperPool.ThreadCache.deallocate c3ShortState 777 8).1.free_list_size.getD
          (SupperPool.SizeClass.getIndex 8) 0 =
        c3ShortState.free_list_size.getD (SupperPool.SizeClass.getIndex 8) 0 + 1 ∧
      (SupperPool.ThreadCache.deallocate c3ShortState 777 8).1.free_list.getD
          (SupperPool.SizeClass.getIndex 8) [] =
        777 :: c3ShortState.free_list.getD (SupperPool.SizeClass.getIndex 8) [] ∧
      (SupperPool.ThreadCache.deallocate c3ShortState 777 8).2 = []) :=
  ⟨(C3_return_policy c3State 777 8 (by decide) (by decide) (by decide) (by decide)
      (by decide) (by decide)).1,
   (C3_return_policy c3ShortState 777 8 (by decide) (by decide) (by decide) (by decide)
      (by decide) (by decide)).2⟩
